import Mathlib

/-!
Verification of the Resmi Gazete bot core (src/scraper.py, src/filter.py)
against its natural-language specification.

The Python code is shallowly embedded: Python strings are Lean `String`s,
`str.upper()` / `str.lower()` and the regex `IGNORECASE` folding are modelled
character-wise over the alphabet the program manipulates (ASCII plus the
Turkish letters appearing in the sources' tables and patterns); chained
single-character `str.replace` calls, whose sources are pairwise distinct and
whose targets are never later sources, are modelled as one character map.
Python `dict` accumulation is modelled as an insertion-ordered association
list.  `requests`/network effects are modelled by passing each transport
call's outcome (`Option String`: `none` = exception, `some body` = response
text) as an explicit argument, and `BeautifulSoup` by the abstract document
it yields (full text plus the ordered `find_all(['b','strong','u','a'])`
element list).
-/

namespace ResmiGazete

/-- Character translation through an association table: the first pair whose
source equals `c` gives the image, otherwise `c` is unchanged.  This is the
character-wise action of a chain of single-character `str.replace` calls. -/
def tableMap (tbl : List (Char × Char)) (c : Char) : Char :=
  ((tbl.find? (fun p => p.1 == c)).map (fun p => p.2)).getD c

/-- ASCII a–z to A–Z pairs, the ASCII part of Python `str.upper()`. -/
def asciiUpperPairs : List (Char × Char) :=
  [('a','A'),('b','B'),('c','C'),('d','D'),('e','E'),('f','F'),('g','G'),
   ('h','H'),('i','I'),('j','J'),('k','K'),('l','L'),('m','M'),('n','N'),
   ('o','O'),('p','P'),('q','Q'),('r','R'),('s','S'),('t','T'),('u','U'),
   ('v','V'),('w','W'),('x','X'),('y','Y'),('z','Z')]

/-- Turkish lowercase to uppercase pairs (Unicode simple uppercase mappings,
as Python `str.upper()` performs them; dotless ı uppercases to ASCII I,
dotted İ is already uppercase and is left unchanged). -/
def turkishUpperPairs : List (Char × Char) :=
  [('ı','I'),('ğ','Ğ'),('ü','Ü'),('ş','Ş'),('ö','Ö'),('ç','Ç'),
   ('â','Â'),('î','Î'),('û','Û')]

/-- Model of Python `str.upper()` on one character. -/
def pyUpperChar (c : Char) : Char := tableMap (asciiUpperPairs ++ turkishUpperPairs) c

/-- ASCII A–Z to a–z pairs. -/
def asciiLowerPairs : List (Char × Char) :=
  [('A','a'),('B','b'),('C','c'),('D','d'),('E','e'),('F','f'),('G','g'),
   ('H','h'),('I','i'),('J','j'),('K','k'),('L','l'),('M','m'),('N','n'),
   ('O','o'),('P','p'),('Q','q'),('R','r'),('S','s'),('T','t'),('U','u'),
   ('V','v'),('W','w'),('X','x'),('Y','y'),('Z','z')]

/-- Turkish uppercase to lowercase pairs (Unicode simple lowercase mappings,
used both for `str.lower()` and for the `re.IGNORECASE` case folding; dotted
İ is mapped to plain i as in the regex engine's simple folding). -/
def turkishLowerPairs : List (Char × Char) :=
  [('İ','i'),('Ğ','ğ'),('Ü','ü'),('Ş','ş'),('Ö','ö'),('Ç','ç'),
   ('Â','â'),('Î','î'),('Û','û')]

/-- Model of Python `str.lower()` (and of `re.IGNORECASE` folding) on one
character. -/
def pyLowerChar (c : Char) : Char := tableMap (asciiLowerPairs ++ turkishLowerPairs) c

/-- Map a character function over a string. -/
def mapStr (f : Char → Char) (s : String) : String := String.mk (s.data.map f)

/-- Python `str.upper()`. -/
def pyUpper (s : String) : String := mapStr pyUpperChar s

/-- Python `str.lower()` / regex case folding. -/
def pyLower (s : String) : String := mapStr pyLowerChar s

/-- `needle` occurs as a contiguous sublist of `hay` — Python's
`needle in hay` on strings, on the character-list level. -/
def subL (needle hay : List Char) : Bool :=
  hay.tails.any (fun t => needle.isPrefixOf t)

/-- Python `needle in hay` on strings. -/
def strContains (hay needle : String) : Bool := subL needle.data hay.data

/-- scraper.py `_normalize_text`'s replacement table (applied after
`str.upper()`): fold Turkish letters to their closest ASCII letter,
uppercase targets throughout. -/
def scraperFoldPairs : List (Char × Char) :=
  [('İ','I'),('Ğ','G'),('Ü','U'),('Ş','S'),('Ö','O'),('Ç','C'),
   ('ı','I'),('ğ','G'),('ü','U'),('ş','S'),('ö','O'),('ç','C'),
   ('Â','A'),('â','A'),('Î','I'),('î','I'),('Û','U'),('û','U')]

/-- One-character action of scraper.py `_normalize_text`: `str.upper()`
followed by the replacement chain. -/
def normalizeTextChar (c : Char) : Char := tableMap scraperFoldPairs (pyUpperChar c)

/-- scraper.py `ResmiGazeteScraper._normalize_text`: uppercase, then fold
Turkish characters to ASCII. -/
def normalizeText (s : String) : String := mapStr normalizeTextChar s

/-- filter.py `GazetteFilter._normalize_turkish`'s replacement table: folds
diacritics but preserves the case of each character (no `upper()` call of
its own). -/
def turkishFoldPairs : List (Char × Char) :=
  [('İ','I'),('Ğ','G'),('Ü','U'),('Ş','S'),('Ö','O'),('Ç','C'),
   ('ı','i'),('ğ','g'),('ü','u'),('ş','s'),('ö','o'),('ç','c'),
   ('Â','A'),('â','a'),('Î','I'),('î','i'),('Û','U'),('û','u')]

/-- One-character action of filter.py `_normalize_turkish`. -/
def normalizeTurkishChar (c : Char) : Char := tableMap turkishFoldPairs c

/-- filter.py `GazetteFilter._normalize_turkish`. -/
def normalizeTurkish (s : String) : String := mapStr normalizeTurkishChar s

/-- scraper.py `GazetteItem` dataclass. -/
structure GazetteItem where
  title : String
  category : String
  link : String
  item_type : String := "htm"
deriving DecidableEq, Repr

/-- filter.py `GazetteFilter.__init__` configuration flags, with the
constructor's explicit defaults. -/
structure GazetteFilterCfg where
  filter_universities : Bool := true
  filter_announcements : Bool := true
  filter_central_bank : Bool := true
  filter_appointments : Bool := false
deriving DecidableEq, Repr

/-- filter.py `UNIVERSITY_PATTERN`: alternation of literal keywords,
`re.IGNORECASE`; `search` succeeds iff some keyword occurs in the
case-folded title. -/
def UNIVERSITY_KEYWORDS : List String :=
  ["üniversite","fakülte","enstitü","yüksekokul","rektör","dekan",
   "akademik","öğretim üyesi","doçent","profesör"]

/-- `UNIVERSITY_PATTERN.search(t)` is not None. -/
def universitySearch (t : String) : Bool :=
  UNIVERSITY_KEYWORDS.any (fun k => strContains (pyLower t) k)

/-- filter.py `APPOINTMENT_PATTERN` keywords. -/
def APPOINTMENT_KEYWORDS : List String :=
  ["atama","kadro","münhal","personel alımı","sözleşmeli personel"]

/-- `APPOINTMENT_PATTERN.search(t)` is not None. -/
def appointmentSearch (t : String) : Bool :=
  APPOINTMENT_KEYWORDS.any (fun k => strContains (pyLower t) k)

/-- The alternatives of the second group of filter.py `CENTRAL_BANK_PATTERN`. -/
def CB_KEYWORDS : List String := ["döviz","kur","efektif","parite"]

/-- filter.py `CENTRAL_BANK_PATTERN.search(t)` is not None: the case-folded
title contains "merkez bankası" followed, within 0–30 characters none of
which is a newline (`.` does not match newline), by one of the group-2
keywords. -/
def centralBankSearch (t : String) : Bool :=
  let cs := (pyLower t).data
  let pre := "merkez bankası".data
  cs.tails.any (fun tl =>
    pre.isPrefixOf tl &&
    (List.range 31).any (fun g =>
      ((tl.drop pre.length).take g).all (fun c => c ≠ '\n') &&
      CB_KEYWORDS.any (fun k => k.data.isPrefixOf ((tl.drop pre.length).drop g))))

/-- filter.py `FILTERED_CATEGORIES`. -/
def FILTERED_CATEGORIES : List String :=
  ["YARGI İLÂNLARI",
   "YARGIILANLARI",
   "YARGI ILANLARI",
   "ARTIRMA, EKSİLTME",
   "ARTIRMA EKSİLTME",
   "ARTIRMA,EKSİLTME",
   "ÇEŞİTLİ İLÂNLAR",
   "ÇEŞİTLİ ILANLAR",
   "CESITLI ILANLAR"]

/-- The announcement reason string: `f"İlan kategorisi: {item.category}"`. -/
def ilanReason (category : String) : String := "İlan kategorisi: " ++ category

/-- The category test of the announcement branch of `should_filter`: some
filtered category, uppercased and Turkish-normalized, contains or is
contained in the uppercased, normalized item category.  The Python loop
returns on the first matching entry; as every entry yields the same result
tuple, the loop's observable outcome is this `any`. -/
def categoryMatches (category : String) : Bool :=
  let catN := normalizeTurkish (pyUpper category)
  FILTERED_CATEGORIES.any (fun fc =>
    let fcN := normalizeTurkish (pyUpper fc)
    strContains catN fcN || strContains fcN catN)

/-- filter.py `GazetteFilter.should_filter`: the four rule families in
source order, first enabled match wins; `(False, "")` when none fires. -/
def should_filter (cfg : GazetteFilterCfg) (item : GazetteItem) : Bool × String :=
  if cfg.filter_announcements && categoryMatches item.category then
    (true, ilanReason item.category)
  else if cfg.filter_universities && universitySearch item.title then
    (true, "Üniversite/Akademik içerik")
  else if cfg.filter_central_bank && centralBankSearch item.title then
    (true, "Merkez Bankası döviz/kur")
  else if cfg.filter_appointments && appointmentSearch item.title then
    (true, "Atama/Kadro ilanı")
  else (false, "")

/-- filter.py `FilterResult` dataclass; the `filter_summary` dict is an
insertion-ordered association list. -/
structure FilterResult where
  kept_items : List GazetteItem
  filtered_items : List GazetteItem
  filter_summary : List (String × Nat)
deriving DecidableEq, Repr

/-- `if reason not in d: d[reason] = 0; d[reason] += 1` on the ordered
association list. -/
def bump (m : List (String × Nat)) (r : String) : List (String × Nat) :=
  match m with
  | [] => [(r, 1)]
  | (k, v) :: rest => if k = r then (k, v + 1) :: rest else (k, v) :: bump rest r

/-- One iteration of the `filter_items` loop over `(kept, filtered, reasons)`. -/
def filterStep (cfg : GazetteFilterCfg)
    (acc : List GazetteItem × List GazetteItem × List (String × Nat))
    (item : GazetteItem) :
    List GazetteItem × List GazetteItem × List (String × Nat) :=
  let sf := should_filter cfg item
  if sf.1 then (acc.1, acc.2.1 ++ [item], bump acc.2.2 sf.2)
  else (acc.1 ++ [item], acc.2.1, acc.2.2)

/-- filter.py `GazetteFilter.filter_items`. -/
def filter_items (cfg : GazetteFilterCfg) (items : List GazetteItem) : FilterResult :=
  let acc := items.foldl (filterStep cfg) ([], [], [])
  ⟨acc.1, acc.2.1, acc.2.2⟩

/-- Sum of the counts of the reason dictionary. -/
def sumValues (m : List (String × Nat)) : Nat := (m.map (fun p => p.2)).sum

/-- `d.get(r, 0)` on the ordered association list. -/
def lookupD (m : List (String × Nat)) (r : String) : Nat :=
  ((m.find? (fun p => p.1 == r)).map (fun p => p.2)).getD 0

/-! ## scraper.py -/

/-- scraper.py `BASE_URL`. -/
def BASE_URL : String := "https://www.resmigazete.gov.tr"

/-- scraper.py `SKIP_TITLES`. -/
def SKIP_TITLES : List String :=
  ["pdf görüntüle", "htm görüntüle", "görüntüle", "yazdır",
   "ana sayfa", "iletişim", "arama", "arşiv", "önceki sayı",
   "tüm kategoriler", "zaman aralığı", "son mükerrer", "fihrist"]

/-- scraper.py `CATEGORY_HEADERS`. -/
def CATEGORY_HEADERS : List String :=
  ["YÜRÜTME VE İDARE BÖLÜMÜ",
   "YASAMA BÖLÜMÜ",
   "YARGI BÖLÜMÜ",
   "İLÂN BÖLÜMÜ",
   "İLAN BÖLÜMÜ",
   "MİLLETLERARASI ANDLAŞMALAR",
   "HÂKİMLER VE SAVCILAR KURULU KARARI",
   "HÂKİMLER VE SAVCILAR KURULU",
   "HAKIMLER VE SAVCILAR KURULU",
   "CUMHURBAŞKANLIĞI KARARLARI",
   "CUMHURBAŞKANLIĞI",
   "BAKANLAR KURULU KARARLARI",
   "YÖNETMELİKLER",
   "TEBLİĞLER",
   "GENELGELER",
   "KANUNLAR",
   "KANUN HÜKMÜNDE KARARNAME",
   "ATAMA KARARLARI"]

/-- Python whitespace (the class stripped by `str.strip()` and matched by
the regex class of blank characters). -/
def pyIsSpace (c : Char) : Bool :=
  c = ' ' || c = '\t' || c = '\n' || c = '\r' || c = '\x0b' || c = '\x0c'

/-- Python `str.strip()`. -/
def pyStrip (s : String) : String :=
  String.mk (((s.data.dropWhile pyIsSpace).reverse.dropWhile pyIsSpace).reverse)

/-- The Turkish letters of the program's alphabet, counted as alphabetic by
Python `str.isalpha()` (Lean's `Char.isAlpha` is ASCII-only). -/
def TURKISH_LETTERS : List Char :=
  ['ı','ğ','ü','ş','ö','ç','â','î','û','İ','Ğ','Ü','Ş','Ö','Ç','Â','Î','Û']

/-- Python `c.isalpha()` over the modelled alphabet. -/
def pyIsAlpha (c : Char) : Bool := c.isAlpha || TURKISH_LETTERS.contains c

/-- Python `c.isdigit()` / the digit regex class on ASCII input. -/
def pyIsDigit (c : Char) : Bool := c.isDigit

/-- scraper.py `ResmiGazeteScraper._should_skip_title`. -/
def shouldSkipTitle (title : String) : Bool :=
  let tl := pyStrip (pyLower title)
  if tl.data.length < 5 then true
  else if SKIP_TITLES.any (fun k => strContains tl k) then true
  else if !(title.data.any pyIsAlpha) then true
  else false

/-- scraper.py `ResmiGazeteScraper._is_category_header` (defined in the
source but never called from `parse_html`): the stripped text, when of
length 5–100 and containing some normalized header, is returned verbatim. -/
def isCategoryHeader (text : String) : Option String :=
  let t := pyStrip text
  if t.data.length < 5 || t.data.length > 100 then none
  else if CATEGORY_HEADERS.any
      (fun cat => strContains (normalizeText t) (normalizeText cat)) then some t
  else none

/-- scraper.py `ResmiGazeteScraper._get_category_from_title`: the keyword
cascade over the normalized title, in source order. -/
def getCategoryFromTitle (title : String) : String :=
  let tu := normalizeText title
  if strContains tu "HAKIM" || strContains tu "SAVCI" then
    "HÂKİMLER VE SAVCILAR KURULU KARARI"
  else if strContains tu "YONETMELIK" then "YÖNETMELİKLER"
  else if strContains tu "OZELLESTIRME" then "TEBLİĞLER"
  else if strContains tu "TEBLIG" then "TEBLİĞLER"
  else if strContains tu "KANUN" then "YASAMA BÖLÜMÜ"
  else if strContains tu "CUMHURBASKANI" || strContains tu "CUMHURBASKANLIGI" then
    "CUMHURBAŞKANLIĞI KARARLARI"
  else if strContains tu "GENELGE" then "GENELGELER"
  else if strContains tu "ILAN" || strContains tu "IHALE" then "İLÂN BÖLÜMÜ"
  else if strContains tu "YARGI" then "İLÂN BÖLÜMÜ"
  else if strContains tu "MERKEZ BANKASI" || strContains tu "DOVIZ" then "TEBLİĞLER"
  else "Diğer"

/-- One node of BeautifulSoup's `find_all(['b','strong','u','a'])` stream:
tag name, the `get_text(strip=True)` value, and `get('href', '')`. -/
structure Elem where
  name : String
  text : String
  href : String := ""
deriving DecidableEq, Repr

/-- The abstract document BeautifulSoup yields from the raw content: the
full `get_text()` and the ordered element stream. -/
structure Doc where
  text : String
  elems : List Elem
deriving DecidableEq, Repr

/-- scraper.py `GazetteData` dataclass. -/
structure GazetteData where
  date : String
  issue_number : String
  items : List GazetteItem
  url : String
deriving DecidableEq, Repr

/-- scraper.py `MONTH_NAMES` as they appear in the date regex. -/
def MONTH_NAMES : List String :=
  ["Ocak","Şubat","Mart","Nisan","Mayıs","Haziran","Temmuz","Ağustos",
   "Eylül","Ekim","Kasım","Aralık"]

/-- Anchored match of the date regex — one or two digits, blank run, month
name (case-insensitive), blank run, four digits — at the start of `cs`;
returns the matched text.
The one-or-two digit group is greedy (two digits tried first); the
blank-runs are maximal, which is equivalent to the regex's greedy matching
because every month name starts with a non-blank character. -/
def matchDateFrom (cs : List Char) : Option (List Char) :=
  [2, 1].findSome? (fun dlen =>
    let ds := cs.take dlen
    if ds.length = dlen && ds.all pyIsDigit then
      let rest := cs.drop dlen
      let ws := rest.takeWhile pyIsSpace
      if ws.isEmpty then none
      else
        let rest2 := rest.drop ws.length
        MONTH_NAMES.findSome? (fun m =>
          let ml := m.data.length
          let cand := rest2.take ml
          if cand.length = ml && (cand.map pyLowerChar == m.data.map pyLowerChar) then
            let rest3 := rest2.drop ml
            let ws2 := rest3.takeWhile pyIsSpace
            if ws2.isEmpty then none
            else
              let rest4 := rest3.drop ws2.length
              let d4 := rest4.take 4
              if d4.length = 4 && d4.all pyIsDigit then
                some (ds ++ ws ++ cand ++ ws2 ++ d4)
              else none
          else none)
    else none)

/-- `re.search`: try the anchored matcher at every position, leftmost first. -/
def searchFirst (f : List Char → Option (List Char)) (cs : List Char) :
    Option (List Char) :=
  cs.tails.findSome? f

/-- The date extraction of `parse_html`: `group(0)` of the first date match. -/
def dateSearch (text : String) : Option String :=
  (searchFirst matchDateFrom text.data).map (fun l => String.mk l)

/-- Anchored match of the issue regex (`Sayı`, blank*, colon, blank*,
digit+) at the start of `cs`; returns the digit group. -/
def matchIssueFrom (cs : List Char) : Option (List Char) :=
  if "Sayı".data.isPrefixOf cs then
    let rest := cs.drop "Sayı".data.length
    let rest2 := rest.drop (rest.takeWhile pyIsSpace).length
    match rest2 with
    | ':' :: rest3 =>
      let rest4 := rest3.drop (rest3.takeWhile pyIsSpace).length
      let ds := rest4.takeWhile pyIsDigit
      if ds.isEmpty then none else some ds
    | _ => none
  else none

/-- The issue-number extraction of `parse_html`: `group(1)` of the first
issue match. -/
def issueSearch (text : String) : Option String :=
  (searchFirst matchIssueFrom text.data).map (fun l => String.mk l)

/-- Python `s.startswith(p)`. -/
def pyStartsWith (s p : String) : Bool := p.data.isPrefixOf s.data

/-- Relative-href resolution of `parse_html`. -/
def resolveHref (href : String) : String :=
  if pyStartsWith href "http" then href
  else if pyStartsWith href "/" then BASE_URL ++ href
  else BASE_URL ++ "/" ++ href

/-- One iteration of the element loop of `parse_html`.  Only `a` nodes can
emit an item; the title/extension/chrome checks, URL resolution, type
classification, per-title category assignment and duplicate-link dedup are
those of the source, in source order. -/
def processElem (items : List GazetteItem) (e : Elem) : List GazetteItem :=
  if e.name ≠ "a" then items
  else if shouldSkipTitle e.text then items
  else if !(strContains (pyLower e.href) ".pdf"
        || strContains (pyLower e.href) ".htm") then items
  else if strContains (pyLower e.href) "default.aspx" then items
  else if items.any (fun it => it.link == resolveHref e.href) then items
  else items ++ [⟨e.text, getCategoryFromTitle e.text, resolveHref e.href,
    if strContains (pyLower e.href) ".pdf" then "pdf" else "htm"⟩]

/-- scraper.py `ResmiGazeteScraper.parse_html` over the abstract document,
with the clock reading `datetime.now().strftime('%d %B %Y')` passed as the
explicit argument `now` (its only dependence besides the input).  The
source's locals `current_category = "Genel"` and `element_categories` are
initialized but never updated or read afterwards, so they do not appear. -/
def parseDoc (now : String) (doc : Doc) : GazetteData :=
  let date_str := (dateSearch doc.text).getD now
  let issue_number := (issueSearch doc.text).getD "Bilinmiyor"
  let items := doc.elems.foldl processElem []
  ⟨date_str, issue_number, items, BASE_URL⟩

/-- `parse_html` on raw content: BeautifulSoup (the external HTML parser)
is the abstract function `soup` from raw content to its document. -/
def parse_html (soup : String → Doc) (now : String) (html : String) : GazetteData :=
  parseDoc now (soup html)

/-- Events observable during `fetch_via_proxy`: an HTTP attempt against
proxy candidate `i`, or a blocking `time.sleep(d)`. -/
inductive FetchEvent where
  | attempt (i : Nat)
  | sleep (d : ℚ)
deriving DecidableEq, Repr

/-- The body sanity check of `fetch_via_proxy`. -/
def contentSanity (c : String) : Bool :=
  strContains (pyLower c) "resmi" || strContains (pyLower c) "gazete"

/-- The mojibake-repair step of `fetch_via_proxy`: when the body contains
'Ã' or 'Ä', re-decode through the external codec `fixFn` (`none` models the
silent `except` path that keeps the original body). -/
def encodingFix (fixFn : String → Option String) (c : String) : String :=
  if strContains c "Ã" || strContains c "Ä" then (fixFn c).getD c else c

/-- scraper.py `ResmiGazeteScraper.fetch_via_proxy` over an explicit list
of candidate indices, producing the returned content and the event trace.
`outcomes i` is the transport result of the request through candidate `i`
(`none`: a requests exception; `some body`: the response text once
`raise_for_status` passed); `jitter i` is the `random.uniform(1, 2)` draw
slept after candidate `i` when it did not return. -/
def fetchViaProxyGo (fixFn : String → Option String)
    (outcomes : Nat → Option String) (jitter : Nat → ℚ) :
    List Nat → Option String × List FetchEvent
  | [] => (none, [])
  | i :: rest =>
    match outcomes i with
    | none =>
      ((fetchViaProxyGo fixFn outcomes jitter rest).1,
       FetchEvent.attempt i :: FetchEvent.sleep (jitter i)
         :: (fetchViaProxyGo fixFn outcomes jitter rest).2)
    | some body =>
      if contentSanity (encodingFix fixFn body) then
        (some (encodingFix fixFn body), [FetchEvent.attempt i])
      else
        ((fetchViaProxyGo fixFn outcomes jitter rest).1,
         FetchEvent.attempt i :: FetchEvent.sleep (jitter i)
           :: (fetchViaProxyGo fixFn outcomes jitter rest).2)

/-- The number of entries of scraper.py `PROXY_SERVICES`. -/
def PROXY_COUNT : Nat := 3

/-- `fetch_via_proxy` over the source's three proxy services. -/
def fetchViaProxy (fixFn : String → Option String)
    (outcomes : Nat → Option String) (jitter : Nat → ℚ) :
    Option String × List FetchEvent :=
  fetchViaProxyGo fixFn outcomes jitter (List.range PROXY_COUNT)

/-- scraper.py `ResmiGazeteScraper.fetch_direct`: a single attempt whose
transport outcome is returned as is (`none` models the caught exception). -/
def fetchDirect (outcome : Option String) : Option String := outcome

/-- Python truthiness of an `Optional[str]`. -/
def pyTruthy (o : Option String) : Bool :=
  match o with
  | none => false
  | some s => !(s == "")

/-- The message of the exception `scrape` raises on total exhaustion. -/
def FETCH_FAIL_MSG : String := "Hiçbir yöntemle içerik alınamadı"

/-- The content selection of `scrape`: the direct tier's body when truthy,
otherwise whatever the proxy chain produced. -/
def scrapeContent (directOutcome : Option String) (fixFn : String → Option String)
    (proxyOutcomes : Nat → Option String) (jitter : Nat → ℚ) : Option String :=
  if pyTruthy (fetchDirect directOutcome) then fetchDirect directOutcome
  else (fetchViaProxy fixFn proxyOutcomes jitter).1

/-- scraper.py `ResmiGazeteScraper.scrape`: direct connection first, the
proxy chain when the direct content is falsy, an exception when the
selected content is still falsy, otherwise `parse_html` of it. -/
def scrape (soup : String → Doc) (now : String) (directOutcome : Option String)
    (fixFn : String → Option String) (proxyOutcomes : Nat → Option String)
    (jitter : Nat → ℚ) : Except String GazetteData :=
  match scrapeContent directOutcome fixFn proxyOutcomes jitter with
  | some c =>
    if c == "" then Except.error FETCH_FAIL_MSG
    else Except.ok (parse_html soup now c)
  | none => Except.error FETCH_FAIL_MSG

/-- The candidate indices attempted in a fetch trace, in order. -/
def attemptIndices (tr : List FetchEvent) : List Nat :=
  tr.filterMap (fun e => match e with | FetchEvent.attempt i => some i | _ => none)

/-- The sleep durations of a fetch trace, in order. -/
def sleepDurations (tr : List FetchEvent) : List ℚ :=
  tr.filterMap (fun e => match e with | FetchEvent.sleep d => some d | _ => none)

/-! ## Concrete fixtures used by the witnesses and counterexamples -/

/-- The `GazetteFilter()` constructed with its default arguments. -/
def defaultCfg : GazetteFilterCfg := {}

/-- A configuration with every rule family enabled. -/
def allOnCfg : GazetteFilterCfg := ⟨true, true, true, true⟩

/-- A synthetic document: header, two links, header, link — the shape of the
spec's category-cursor scenario. -/
def cursorDoc : Doc :=
  ⟨"", [⟨"b", "YASAMA BÖLÜMÜ", ""⟩,
        ⟨"a", "Deneme Belgesi Hakkında", "/belge1.pdf"⟩,
        ⟨"a", "Deneme Duyurusu Metni", "/belge2.pdf"⟩,
        ⟨"b", "YÖNETMELİKLER", ""⟩,
        ⟨"a", "Deneme Raporu Metni", "/belge3.pdf"⟩]⟩

/-- A document with no text and no elements. -/
def emptyDoc : Doc := ⟨"", []⟩

/-- A document whose text carries a date and an issue number. -/
def dateDoc : Doc := ⟨"15 Ocak 2025 Sayı : 32001", []⟩

/-- The spec's announcement scenario item. -/
def ilanScenarioItem : GazetteItem :=
  ⟨"a - Yargı İlânları", "İLÂN BÖLÜMÜ", "https://www.resmigazete.gov.tr/ilan.pdf", "pdf"⟩

/-- An item whose title carries an exchange-rate keyword with no
central-bank mention. -/
def dovizItem : GazetteItem :=
  ⟨"Döviz Kurlarına İlişkin Karar", "TEBLİĞLER",
   "https://www.resmigazete.gov.tr/doviz.pdf", "pdf"⟩

/-- An item whose title carries the central-bank plus exchange-rate
co-occurrence. -/
def mbItem : GazetteItem :=
  ⟨"Merkez Bankası Döviz Kurları", "TEBLİĞLER",
   "https://www.resmigazete.gov.tr/mb.pdf", "pdf"⟩

/-- An item matching both the announcement category set and the university
title pattern. -/
def univAnnItem : GazetteItem :=
  ⟨"İstanbul Üniversitesi Yönetmeliği", "YARGI İLÂNLARI",
   "https://www.resmigazete.gov.tr/u.pdf", "pdf"⟩

/-- An item with an empty category string. -/
def emptyCatItem : GazetteItem :=
  ⟨"Sıradan Karar Metni", "", "https://www.resmigazete.gov.tr/k.pdf", "pdf"⟩

/-- The proxy-outcome environment in which only candidate 1 returns a body. -/
def proxyTierTwoOutcomes : Nat → Option String :=
  fun i => if i = 1 then some "resmi gazete deneme" else none

/-- The reason-count accumulation of the `filter_items` loop, on its own. -/
def reasonsFold (cfg : GazetteFilterCfg) (m : List (String × Nat))
    (items : List GazetteItem) : List (String × Nat) :=
  items.foldl (fun acc it =>
    if (should_filter cfg it).1 then bump acc (should_filter cfg it).2 else acc) m

/-- Character images a normalizer can produce beside the identity: needed to
state that scraper.py's normalizer is stable on its own output. -/
def normTextTargets : List Char :=
  ((asciiUpperPairs ++ turkishUpperPairs).map (fun p => p.2)).map
      (tableMap scraperFoldPairs)
    ++ scraperFoldPairs.map (fun p => p.2)

/-! ## Helper lemmas -/

theorem tableMap_eq_self_or_mem (tbl : List (Char × Char)) (c : Char) :
    tableMap tbl c = c ∨ tableMap tbl c ∈ tbl.map (fun p => p.2) := by
  unfold tableMap
  cases h : tbl.find? (fun p => p.1 == c) with
  | none => left; rfl
  | some p =>
    right
    have hp : p ∈ tbl := List.mem_of_find?_eq_some h
    simp only [Option.map_some', Option.getD_some]
    exact List.mem_map_of_mem _ hp

theorem normalizeTurkishChar_fixed :
    ∀ t ∈ turkishFoldPairs.map (fun p => p.2), normalizeTurkishChar t = t := by decide

theorem normalizeTurkishChar_idem (c : Char) :
    normalizeTurkishChar (normalizeTurkishChar c) = normalizeTurkishChar c := by
  rcases tableMap_eq_self_or_mem turkishFoldPairs c with h | h
  · show tableMap turkishFoldPairs (tableMap turkishFoldPairs c)
      = tableMap turkishFoldPairs c
    rw [h]
    exact h
  · exact normalizeTurkishChar_fixed _ h

theorem normalizeTextChar_fixed :
    ∀ t ∈ normTextTargets, normalizeTextChar t = t := by decide

theorem normalizeTextChar_cases (c : Char) :
    normalizeTextChar c = c ∨ normalizeTextChar c ∈ normTextTargets := by
  unfold normalizeTextChar pyUpperChar
  rcases tableMap_eq_self_or_mem (asciiUpperPairs ++ turkishUpperPairs) c with h | h
  · rw [h]
    rcases tableMap_eq_self_or_mem scraperFoldPairs c with h2 | h2
    · left; exact h2
    · right
      unfold normTextTargets
      exact List.mem_append_right _ h2
  · right
    unfold normTextTargets
    exact List.mem_append_left _ (List.mem_map_of_mem _ h)

theorem normalizeTextChar_idem (c : Char) :
    normalizeTextChar (normalizeTextChar c) = normalizeTextChar c := by
  rcases normalizeTextChar_cases c with h | h
  · rw [h]
    exact h
  · exact normalizeTextChar_fixed _ h

theorem mapStr_idem (f : Char → Char) (hf : ∀ c, f (f c) = f c) (s : String) :
    mapStr f (mapStr f s) = mapStr f s := by
  show String.mk ((s.data.map f).map f) = String.mk (s.data.map f)
  rw [List.map_map]
  exact congrArg String.mk (List.map_congr_left (fun c _ => hf c))

theorem sumValues_cons (k : String) (v : Nat) (rest : List (String × Nat)) :
    sumValues ((k, v) :: rest) = v + sumValues rest := by
  simp [sumValues]

theorem lookupD_cons (k : String) (v : Nat) (rest : List (String × Nat))
    (r : String) : lookupD ((k, v) :: rest) r = if k = r then v else lookupD rest r := by
  by_cases h : k = r
  · have hb : (k == r) = true := beq_iff_eq.mpr h
    simp [lookupD, List.find?, hb, h]
  · have hb : (k == r) = false := beq_eq_false_iff_ne.mpr h
    simp [lookupD, List.find?, hb, h]

theorem bump_sumValues (m : List (String × Nat)) (r : String) :
    sumValues (bump m r) = sumValues m + 1 := by
  induction m with
  | nil => rfl
  | cons p rest ih =>
    obtain ⟨k, v⟩ := p
    unfold bump
    by_cases h : k = r
    · rw [if_pos h, sumValues_cons, sumValues_cons]
      omega
    · rw [if_neg h, sumValues_cons, sumValues_cons, ih]
      omega

theorem bump_lookupD_self (m : List (String × Nat)) (r : String) :
    lookupD (bump m r) r = lookupD m r + 1 := by
  induction m with
  | nil => simp [bump, lookupD, List.find?]
  | cons p rest ih =>
    obtain ⟨k, v⟩ := p
    unfold bump
    by_cases h : k = r
    · rw [if_pos h, lookupD_cons, lookupD_cons, if_pos h, if_pos h]
    · rw [if_neg h, lookupD_cons, lookupD_cons, if_neg h, if_neg h, ih]

theorem bump_lookupD_ne (m : List (String × Nat)) (r r' : String) (hne : r' ≠ r) :
    lookupD (bump m r) r' = lookupD m r' := by
  induction m with
  | nil =>
    have hb : (r == r') = false := beq_eq_false_iff_ne.mpr (Ne.symm hne)
    simp [bump, lookupD, List.find?, hb]
  | cons p rest ih =>
    obtain ⟨k, v⟩ := p
    unfold bump
    by_cases h : k = r
    · have hk : ¬ k = r' := fun he => hne (he.symm.trans h)
      rw [if_pos h, lookupD_cons, lookupD_cons, if_neg hk, if_neg hk]
    · rw [if_neg h, lookupD_cons, lookupD_cons, ih]

theorem reasonsFold_sum (cfg : GazetteFilterCfg) (items : List GazetteItem) :
    ∀ m, sumValues (reasonsFold cfg m items)
      = sumValues m + (items.filter (fun it => (should_filter cfg it).1)).length := by
  induction items with
  | nil => intro m; simp [reasonsFold]
  | cons it rest ih =>
    intro m
    by_cases h : (should_filter cfg it).1
    · have : reasonsFold cfg m (it :: rest)
          = reasonsFold cfg (bump m (should_filter cfg it).2) rest := by
        simp [reasonsFold, h]
      rw [this, ih, bump_sumValues]
      simp [List.filter_cons, h]
      omega
    · have : reasonsFold cfg m (it :: rest) = reasonsFold cfg m rest := by
        simp [reasonsFold, h]
      rw [this, ih]
      simp [List.filter_cons, h]

theorem reasonsFold_lookup (cfg : GazetteFilterCfg) (items : List GazetteItem)
    (r : String) :
    ∀ m, lookupD (reasonsFold cfg m items) r
      = lookupD m r + (items.filter (fun it =>
          (should_filter cfg it).1 && ((should_filter cfg it).2 == r))).length := by
  induction items with
  | nil => intro m; simp [reasonsFold]
  | cons it rest ih =>
    intro m
    by_cases h : (should_filter cfg it).1
    · have hrw : reasonsFold cfg m (it :: rest)
          = reasonsFold cfg (bump m (should_filter cfg it).2) rest := by
        simp [reasonsFold, h]
      by_cases he : (should_filter cfg it).2 = r
      · rw [hrw, ih, he, bump_lookupD_self]
        simp [List.filter_cons, h, he]
        omega
      · rw [hrw, ih, bump_lookupD_ne _ _ _ (fun hx => he hx.symm)]
        simp [List.filter_cons, h, he]
    · have hrw : reasonsFold cfg m (it :: rest) = reasonsFold cfg m rest := by
        simp [reasonsFold, h]
      rw [hrw, ih]
      simp [List.filter_cons, h]

theorem filterFold_eq (cfg : GazetteFilterCfg) (items : List GazetteItem) :
    ∀ k f m, items.foldl (filterStep cfg) (k, f, m)
      = (k ++ items.filter (fun it => !(should_filter cfg it).1),
         f ++ items.filter (fun it => (should_filter cfg it).1),
         reasonsFold cfg m items) := by
  induction items with
  | nil => intro k f m; simp [reasonsFold]
  | cons it rest ih =>
    intro k f m
    rw [List.foldl_cons]
    by_cases h : (should_filter cfg it).1
    · have hstep : filterStep cfg (k, f, m) it
          = (k, f ++ [it], bump m (should_filter cfg it).2) := by
        simp [filterStep, h]
      rw [hstep, ih]
      have hfold : reasonsFold cfg m (it :: rest)
          = reasonsFold cfg (bump m (should_filter cfg it).2) rest := by
        simp [reasonsFold, h]
      rw [hfold]
      simp [List.filter_cons, h]
    · have hstep : filterStep cfg (k, f, m) it = (k ++ [it], f, m) := by
        simp [filterStep, h]
      rw [hstep, ih]
      have hfold : reasonsFold cfg m (it :: rest) = reasonsFold cfg m rest := by
        simp [reasonsFold, h]
      rw [hfold]
      simp [List.filter_cons, h]

/-! ## Claim theorems -/

/-- C1: for every configuration and input sequence, `filter_items` yields a
partition — kept and excluded are the complementary order-preserving
filters of the input, so each input item lands in exactly one bucket and
the bucket lengths sum to the input length — and the reason counts sum to
the number of excluded items, each excluded item incrementing exactly the
count of its own reason key. -/
theorem filter_items_partition (cfg : GazetteFilterCfg) (items : List GazetteItem) :
    (filter_items cfg items).kept_items
        = items.filter (fun it => !(should_filter cfg it).1) ∧
    (filter_items cfg items).filtered_items
        = items.filter (fun it => (should_filter cfg it).1) ∧
    (filter_items cfg items).kept_items.length
        + (filter_items cfg items).filtered_items.length = items.length ∧
    (∀ it : GazetteItem,
        (filter_items cfg items).kept_items.count it
          + (filter_items cfg items).filtered_items.count it = items.count it) ∧
    sumValues (filter_items cfg items).filter_summary
        = (filter_items cfg items).filtered_items.length ∧
    ∀ r : String,
      lookupD (filter_items cfg items).filter_summary r
        = ((filter_items cfg items).filtered_items.filter
            (fun it => (should_filter cfg it).2 == r)).length := by
  have hfold := filterFold_eq cfg items [] [] []
  have hk : (filter_items cfg items).kept_items
      = items.filter (fun it => !(should_filter cfg it).1) := by
    show (items.foldl (filterStep cfg) ([], [], [])).1 = _
    rw [hfold]
    simp
  have hf : (filter_items cfg items).filtered_items
      = items.filter (fun it => (should_filter cfg it).1) := by
    show (items.foldl (filterStep cfg) ([], [], [])).2.1 = _
    rw [hfold]
    simp
  have hm : (filter_items cfg items).filter_summary = reasonsFold cfg [] items := by
    show (items.foldl (filterStep cfg) ([], [], [])).2.2 = _
    rw [hfold]
  have hperm := List.filter_append_perm (fun it => (should_filter cfg it).1) items
  refine ⟨hk, hf, ?_, ?_, ?_, ?_⟩
  · rw [hk, hf]
    have := hperm.length_eq
    rw [List.length_append] at this
    omega
  · intro it
    rw [hk, hf]
    have := hperm.count_eq it
    rw [List.count_append] at this
    omega
  · rw [hm, hf, reasonsFold_sum]
    simp [sumValues]
  · intro r
    rw [hm, hf, reasonsFold_lookup]
    have hff : (items.filter (fun it => (should_filter cfg it).1)).filter
          (fun it => (should_filter cfg it).2 == r)
        = items.filter (fun it =>
            ((should_filter cfg it).2 == r) && (should_filter cfg it).1) := by
      rw [List.filter_filter]
    rw [hff]
    have hcomm : (fun it => ((should_filter cfg it).2 == r) && (should_filter cfg it).1)
        = (fun it => (should_filter cfg it).1 && ((should_filter cfg it).2 == r)) := by
      funext it
      exact Bool.and_comm _ _
    rw [hcomm]
    simp [lookupD, List.find?]

/-- C8 counterexample: the canonicalization function used by filtering,
`_normalize_turkish`, performs no case folding of its own, so it is not
case-insensitive: on "İstanbul" it yields "Istanbul" while on "istanbul"
it yields "istanbul". -/
theorem normalizeTurkish_case_sensitive_cx :
    normalizeTurkish "İstanbul" ≠ normalizeTurkish "istanbul" := by decide

/-- C8 (amended): both canonicalizers are idempotent; the scraper's
`_normalize_text` (used by classification) is case- and
diacritic-insensitive on the spec's example; the filter's
`_normalize_turkish` folds diacritics only, and is case-insensitive on the
example only in composition with the `upper()` call its caller applies
first. -/
theorem normalize_idempotent_insensitive :
    (∀ s : String, normalizeText (normalizeText s) = normalizeText s) ∧
    (∀ s : String, normalizeTurkish (normalizeTurkish s) = normalizeTurkish s) ∧
    normalizeText "İstanbul" = normalizeText "istanbul" ∧
    normalizeText "istanbul" = normalizeText "ISTANBUL" ∧
    normalizeTurkish (pyUpper "İstanbul") = normalizeTurkish (pyUpper "istanbul") ∧
    normalizeTurkish (pyUpper "istanbul") = normalizeTurkish (pyUpper "ISTANBUL") := by
  refine ⟨fun s => mapStr_idem _ normalizeTextChar_idem s,
          fun s => mapStr_idem _ normalizeTurkishChar_idem s, ?_, ?_, ?_, ?_⟩
  · decide
  · decide
  · decide
  · decide

theorem mem_processElem (acc : List GazetteItem) (e : Elem) (it : GazetteItem)
    (h : it ∈ processElem acc e) :
    it ∈ acc ∨ it.category = getCategoryFromTitle it.title := by
  unfold processElem at h
  split at h
  · exact Or.inl h
  · split at h
    · exact Or.inl h
    · split at h
      · exact Or.inl h
      · split at h
        · exact Or.inl h
        · split at h
          · exact Or.inl h
          · rcases List.mem_append.mp h with h' | h'
            · exact Or.inl h'
            · right
              rw [List.mem_singleton] at h'
              subst h'
              rfl

theorem parse_items_category (elems : List Elem) :
    ∀ acc, (∀ it ∈ acc, it.category = getCategoryFromTitle it.title) →
      ∀ it ∈ elems.foldl processElem acc,
        it.category = getCategoryFromTitle it.title := by
  induction elems with
  | nil =>
    intro acc h
    simpa using h
  | cons e rest ih =>
    intro acc h it hit
    rw [List.foldl_cons] at hit
    refine ih _ ?_ it hit
    intro it' hit'
    rcases mem_processElem acc e it' hit' with h' | h'
    · exact h it' h'
    · exact h'

/-- C2 counterexample: in a document that reads header "YASAMA BÖLÜMÜ",
link₁, link₂, header "YÖNETMELİKLER", link₃, the parsed items do not carry
the preceding headers as categories — all three carry the keyword-derived
category "Diğer" computed from their own titles, so the traversal cursor
claimed by the spec is not what tags items. -/
theorem parse_ignores_cursor_cx :
    (parseDoc "01 Ocak 2025" cursorDoc).items.map (fun it => it.category)
        = ["Diğer", "Diğer", "Diğer"] ∧
    ("Diğer" : String) ≠ "YASAMA BÖLÜMÜ" ∧
    ("Diğer" : String) ≠ "YÖNETMELİKLER" := by
  refine ⟨by decide, by decide, by decide⟩

/-- C2 (amended): `parse_html` derives every emitted item's category from
the item's own title through the keyword cascade `_get_category_from_title`;
the `current_category` cursor is initialized but never updated by header
nodes nor consulted, so headers have no effect on item categories. -/
theorem parse_category_from_title (soup : String → Doc) (now html : String) :
    ∀ it ∈ (parse_html soup now html).items,
      it.category = getCategoryFromTitle it.title := by
  intro it hit
  exact parse_items_category (soup html).elems [] (by simp) it hit

/-- Witness for the amended C2 theorem at the synthetic document. -/
theorem parse_category_from_title_witness :
    (GazetteItem.mk "Deneme Belgesi Hakkında" "Diğer"
        "https://www.resmigazete.gov.tr/belge1.pdf" "pdf").category
      = getCategoryFromTitle "Deneme Belgesi Hakkında" :=
  parse_category_from_title (fun _ => cursorDoc) "01 Ocak 2025" "x"
    (GazetteItem.mk "Deneme Belgesi Hakkında" "Diğer"
      "https://www.resmigazete.gov.tr/belge1.pdf" "pdf") (by decide)

/-- C9 counterexample: on content whose text has no date pattern, the date
falls back to the clock reading at call time, so two calls on identical raw
content made at different times return different results. -/
theorem parse_date_clock_cx :
    parse_html (fun _ => emptyDoc) "01 Ocak 2025" "x"
      ≠ parse_html (fun _ => emptyDoc) "02 Ocak 2025" "x" := by decide

/-- C9 (amended): `parse_html` on identical raw content is deterministic in
its item sequence, issue number and source URL, and in its date whenever
the date pattern is present in the document text; only the fallback date
depends on the call-time clock. -/
theorem parse_html_deterministic (soup : String → Doc) (html now₁ now₂ : String) :
    (parse_html soup now₁ html).items = (parse_html soup now₂ html).items ∧
    (parse_html soup now₁ html).issue_number
        = (parse_html soup now₂ html).issue_number ∧
    (parse_html soup now₁ html).url = (parse_html soup now₂ html).url ∧
    (∀ d, dateSearch (soup html).text = some d →
        (parse_html soup now₁ html).date = (parse_html soup now₂ html).date) := by
  refine ⟨rfl, rfl, rfl, ?_⟩
  intro d hd
  show (dateSearch (soup html).text).getD now₁ = (dateSearch (soup html).text).getD now₂
  rw [hd]
  rfl

/-- Witness for the amended C9 theorem on a document carrying a date. -/
theorem parse_html_deterministic_witness :
    (parse_html (fun _ => dateDoc) "01 Ocak 2025" "x").date
      = (parse_html (fun _ => dateDoc) "02 Ocak 2025" "x").date :=
  (parse_html_deterministic (fun _ => dateDoc) "x" "01 Ocak 2025" "02 Ocak 2025").2.2.2
    "15 Ocak 2025" (by decide)

theorem fetchViaProxyGo_cons (fixFn : String → Option String)
    (outcomes : Nat → Option String) (jitter : Nat → ℚ) (i : Nat)
    (rest : List Nat) :
    fetchViaProxyGo fixFn outcomes jitter (i :: rest)
      = match outcomes i with
        | none =>
          ((fetchViaProxyGo fixFn outcomes jitter rest).1,
           FetchEvent.attempt i :: FetchEvent.sleep (jitter i)
             :: (fetchViaProxyGo fixFn outcomes jitter rest).2)
        | some body =>
          if contentSanity (encodingFix fixFn body) = true then
            (some (encodingFix fixFn body), [FetchEvent.attempt i])
          else
            ((fetchViaProxyGo fixFn outcomes jitter rest).1,
             FetchEvent.attempt i :: FetchEvent.sleep (jitter i)
               :: (fetchViaProxyGo fixFn outcomes jitter rest).2) := rfl

theorem fetchViaProxyGo_cons_none (fixFn : String → Option String)
    (outcomes : Nat → Option String) (jitter : Nat → ℚ) (i : Nat) (rest : List Nat)
    (ho : outcomes i = none) :
    fetchViaProxyGo fixFn outcomes jitter (i :: rest)
      = ((fetchViaProxyGo fixFn outcomes jitter rest).1,
         FetchEvent.attempt i :: FetchEvent.sleep (jitter i)
           :: (fetchViaProxyGo fixFn outcomes jitter rest).2) := by
  rw [fetchViaProxyGo_cons fixFn outcomes jitter i rest, ho]

theorem fetchViaProxyGo_cons_sane (fixFn : String → Option String)
    (outcomes : Nat → Option String) (jitter : Nat → ℚ) (i : Nat) (rest : List Nat)
    (body : String) (ho : outcomes i = some body)
    (hs : contentSanity (encodingFix fixFn body) = true) :
    fetchViaProxyGo fixFn outcomes jitter (i :: rest)
      = (some (encodingFix fixFn body), [FetchEvent.attempt i]) := by
  rw [fetchViaProxyGo_cons fixFn outcomes jitter i rest, ho]
  simp [hs]

theorem fetchViaProxyGo_cons_insane (fixFn : String → Option String)
    (outcomes : Nat → Option String) (jitter : Nat → ℚ) (i : Nat) (rest : List Nat)
    (body : String) (ho : outcomes i = some body)
    (hs : contentSanity (encodingFix fixFn body) = false) :
    fetchViaProxyGo fixFn outcomes jitter (i :: rest)
      = ((fetchViaProxyGo fixFn outcomes jitter rest).1,
         FetchEvent.attempt i :: FetchEvent.sleep (jitter i)
           :: (fetchViaProxyGo fixFn outcomes jitter rest).2) := by
  rw [fetchViaProxyGo_cons fixFn outcomes jitter i rest, ho]
  simp [hs]

theorem fetchViaProxyGo_sanity (fixFn : String → Option String)
    (outcomes : Nat → Option String) (jitter : Nat → ℚ) :
    ∀ l c, (fetchViaProxyGo fixFn outcomes jitter l).1 = some c →
      contentSanity c = true := by
  intro l
  induction l with
  | nil =>
    intro c h
    simp [fetchViaProxyGo] at h
  | cons i rest ih =>
    intro c h
    cases ho : outcomes i with
    | none =>
      rw [fetchViaProxyGo_cons_none fixFn outcomes jitter i rest ho] at h
      exact ih c h
    | some body =>
      by_cases hs : contentSanity (encodingFix fixFn body) = true
      · rw [fetchViaProxyGo_cons_sane fixFn outcomes jitter i rest body ho hs] at h
        have hbc : encodingFix fixFn body = c := Option.some.inj h
        rw [← hbc]
        exact hs
      · rw [fetchViaProxyGo_cons_insane fixFn outcomes jitter i rest body ho
          (by simpa using hs)] at h
        exact ih c h

theorem contentSanity_ne_empty (c : String) (h : contentSanity c = true) :
    ¬ (c = "") := by
  intro he
  rw [he] at h
  exact absurd h (by decide)

/-- C3: `scrape` raises its fetch-failure error exactly when every
retrieval tier is exhausted — the direct tier's content is falsy and the
proxy chain produced nothing — and whenever the direct tier fails but the
proxy chain succeeds with some content, `scrape` returns that later tier's
parsed content and no error. -/
theorem scrape_error_iff (soup : String → Doc) (now : String)
    (directOutcome : Option String) (fixFn : String → Option String)
    (proxyOutcomes : Nat → Option String) (jitter : Nat → ℚ) :
    ((∃ e, scrape soup now directOutcome fixFn proxyOutcomes jitter
        = Except.error e)
      ↔ pyTruthy (fetchDirect directOutcome) = false
          ∧ (fetchViaProxy fixFn proxyOutcomes jitter).1 = none) ∧
    (∀ c, pyTruthy (fetchDirect directOutcome) = false →
      (fetchViaProxy fixFn proxyOutcomes jitter).1 = some c →
      scrape soup now directOutcome fixFn proxyOutcomes jitter
        = Except.ok (parse_html soup now c)) := by
  constructor
  · constructor
    · intro ⟨e, he⟩
      by_cases hd : pyTruthy (fetchDirect directOutcome) = true
      · exfalso
        cases hdo : directOutcome with
        | none =>
          rw [hdo] at hd
          exact absurd hd (by decide)
        | some s =>
          rw [hdo] at hd
          have hs : (s == "") = false := by simpa [pyTruthy, fetchDirect] using hd
          simp [scrape, scrapeContent, fetchDirect, hdo, pyTruthy, hs] at he
      · have hd' : pyTruthy (fetchDirect directOutcome) = false := by
          simpa using hd
        refine ⟨hd', ?_⟩
        cases hp : (fetchViaProxy fixFn proxyOutcomes jitter).1 with
        | none => rfl
        | some c =>
          exfalso
          have hc : (c == "") = false := by
            simpa using contentSanity_ne_empty c
              (fetchViaProxyGo_sanity fixFn proxyOutcomes jitter _ c hp)
          simp [scrape, scrapeContent, hd', hp, hc] at he
    · intro ⟨hd, hp⟩
      exact ⟨FETCH_FAIL_MSG, by simp [scrape, scrapeContent, hd, hp]⟩
  · intro c hd hp
    have hc : (c == "") = false := by
      simpa using contentSanity_ne_empty c
        (fetchViaProxyGo_sanity fixFn proxyOutcomes jitter _ c hp)
    simp [scrape, scrapeContent, hd, hp, hc]

/-- Witness for C3: the direct tier fails, only proxy candidate 1 returns a
sane body, and `scrape` returns that body parsed. -/
theorem scrape_error_iff_witness :
    scrape (fun _ => emptyDoc) "01 Ocak 2025" none (fun _ => none)
        proxyTierTwoOutcomes (fun _ => 1)
      = Except.ok (parse_html (fun _ => emptyDoc) "01 Ocak 2025"
          "resmi gazete deneme") :=
  (scrape_error_iff (fun _ => emptyDoc) "01 Ocak 2025" none (fun _ => none)
      proxyTierTwoOutcomes (fun _ => 1)).2
    "resmi gazete deneme" (by decide) (by decide)

theorem attemptIndices_nil : attemptIndices [] = [] := rfl

theorem attemptIndices_attempt_cons (i : Nat) (tr : List FetchEvent) :
    attemptIndices (FetchEvent.attempt i :: tr) = i :: attemptIndices tr := rfl

theorem attemptIndices_sleep_cons (d : ℚ) (tr : List FetchEvent) :
    attemptIndices (FetchEvent.sleep d :: tr) = attemptIndices tr := rfl

theorem sleepDurations_attempt_cons (i : Nat) (tr : List FetchEvent) :
    sleepDurations (FetchEvent.attempt i :: tr) = sleepDurations tr := rfl

theorem sleepDurations_sleep_cons (d : ℚ) (tr : List FetchEvent) :
    sleepDurations (FetchEvent.sleep d :: tr) = d :: sleepDurations tr := rfl

theorem fetchViaProxyGo_attempts (fixFn : String → Option String)
    (outcomes : Nat → Option String) (jitter : Nat → ℚ) :
    ∀ l : List Nat,
      List.Sublist (attemptIndices (fetchViaProxyGo fixFn outcomes jitter l).2) l ∧
      ((fetchViaProxyGo fixFn outcomes jitter l).1 = none →
        sleepDurations (fetchViaProxyGo fixFn outcomes jitter l).2
          = (attemptIndices (fetchViaProxyGo fixFn outcomes jitter l).2).map jitter) := by
  intro l
  induction l with
  | nil =>
    refine ⟨?_, ?_⟩
    · simp [fetchViaProxyGo, attemptIndices]
    · intro _
      simp [fetchViaProxyGo, attemptIndices, sleepDurations]
  | cons i rest ih =>
    cases ho : outcomes i with
    | none =>
      rw [fetchViaProxyGo_cons_none fixFn outcomes jitter i rest ho]
      dsimp only
      refine ⟨?_, ?_⟩
      · rw [attemptIndices_attempt_cons, attemptIndices_sleep_cons]
        exact List.Sublist.cons₂ i ih.1
      · intro h
        rw [sleepDurations_attempt_cons, sleepDurations_sleep_cons,
          attemptIndices_attempt_cons, attemptIndices_sleep_cons,
          List.map_cons, ih.2 h]
    | some body =>
      by_cases hs : contentSanity (encodingFix fixFn body) = true
      · rw [fetchViaProxyGo_cons_sane fixFn outcomes jitter i rest body ho hs]
        dsimp only
        refine ⟨?_, ?_⟩
        · rw [attemptIndices_attempt_cons, attemptIndices_nil]
          exact (List.nil_sublist rest).cons₂ i
        · intro h
          exact Option.noConfusion h
      · rw [fetchViaProxyGo_cons_insane fixFn outcomes jitter i rest body ho
          (by simpa using hs)]
        dsimp only
        refine ⟨?_, ?_⟩
        · rw [attemptIndices_attempt_cons, attemptIndices_sleep_cons]
          exact List.Sublist.cons₂ i ih.1
        · intro h
          rw [sleepDurations_attempt_cons, sleepDurations_sleep_cons,
            attemptIndices_attempt_cons, attemptIndices_sleep_cons,
            List.map_cons, ih.2 h]

/-- C4 counterexample: with every transport call failing, candidate 0 is
attempted exactly once — there is no per-candidate retry loop, so nothing
is "attempted up to max_retries times" — and every inter-candidate delay is
the single uniform jitter draw (here all equal), not a growing
base-to-the-attempt backoff between successive attempts on one candidate. -/
theorem fetch_no_retry_cx :
    attemptIndices (fetchViaProxy (fun _ => none) (fun _ => none)
        (fun _ => 1)).2 = [0, 1, 2] ∧
    ¬ 2 ≤ (attemptIndices (fetchViaProxy (fun _ => none) (fun _ => none)
        (fun _ => 1)).2).count 0 ∧
    sleepDurations (fetchViaProxy (fun _ => none) (fun _ => none)
        (fun _ => 1)).2 = [1, 1, 1] := by
  refine ⟨by decide, by decide, ?_⟩
  rfl

/-- C4 (amended): within the proxy tier each candidate endpoint is
attempted at most once per fetch — the attempted indices form a
duplicate-free, order-preserving subsequence of the candidate list — and
when the whole tier fails, each attempt is followed by exactly one sleep of
the candidate's own uniform(1,2) jitter draw; there is no per-candidate
retry loop or exponential backoff. -/
theorem fetch_attempts_once (fixFn : String → Option String)
    (outcomes : Nat → Option String) (jitter : Nat → ℚ) :
    List.Sublist (attemptIndices (fetchViaProxy fixFn outcomes jitter).2)
        (List.range PROXY_COUNT) ∧
    (∀ i, (attemptIndices (fetchViaProxy fixFn outcomes jitter).2).count i ≤ 1) ∧
    ((fetchViaProxy fixFn outcomes jitter).1 = none →
      sleepDurations (fetchViaProxy fixFn outcomes jitter).2
        = (attemptIndices (fetchViaProxy fixFn outcomes jitter).2).map jitter) := by
  obtain ⟨h1, h2⟩ :=
    fetchViaProxyGo_attempts fixFn outcomes jitter (List.range PROXY_COUNT)
  refine ⟨h1, ?_, h2⟩
  intro i
  calc (attemptIndices (fetchViaProxy fixFn outcomes jitter).2).count i
      ≤ (List.range PROXY_COUNT).count i := h1.count_le i
    _ ≤ 1 := List.nodup_iff_count_le_one.mp (List.nodup_range PROXY_COUNT) i

/-- Witness for the amended C4 theorem at an all-failing environment. -/
theorem fetch_attempts_once_witness :
    (attemptIndices (fetchViaProxy (fun _ => none) (fun _ => none)
        (fun _ => 1)).2).count 0 ≤ 1 ∧
    sleepDurations (fetchViaProxy (fun _ => none) (fun _ => none) (fun _ => 1)).2
      = (attemptIndices (fetchViaProxy (fun _ => none) (fun _ => none)
          (fun _ => 1)).2).map (fun _ => 1) :=
  ⟨(fetch_attempts_once (fun _ => none) (fun _ => none) (fun _ => 1)).2.1 0,
   (fetch_attempts_once (fun _ => none) (fun _ => none) (fun _ => 1)).2.2 (by decide)⟩

/-- C5: the rule families are evaluated announcement → academic →
central-bank → appointment and the first matching enabled rule wins: an
item whose category matches the announcement set — in particular one whose
title also matches the university pattern — is attributed to the
announcement reason only, and over a run it increments exactly that one
reason count. -/
theorem first_rule_wins (cfg : GazetteFilterCfg) (item : GazetteItem)
    (h₁ : cfg.filter_announcements = true)
    (h₂ : categoryMatches item.category = true)
    (h₃ : universitySearch item.title = true) :
    should_filter cfg item = (true, ilanReason item.category) ∧
    ilanReason item.category ≠ "Üniversite/Akademik içerik" ∧
    (filter_items cfg [item]).filtered_items = [item] ∧
    (filter_items cfg [item]).filter_summary = [(ilanReason item.category, 1)] := by
  have hs : should_filter cfg item = (true, ilanReason item.category) := by
    simp [should_filter, h₁, h₂]
  refine ⟨hs, ?_, ?_, ?_⟩
  · intro he
    unfold ilanReason at he
    have hd := congrArg String.data he
    have hda : ("İlan kategorisi: " ++ item.category).data
        = 'İ' :: ("lan kategorisi: ".data ++ item.category.data) := rfl
    rw [hda] at hd
    have h2 : ("Üniversite/Akademik içerik").data
        = 'Ü' :: ("niversite/Akademik içerik").data := rfl
    rw [h2] at hd
    injection hd with hh _
    exact absurd hh (by decide)
  · simp [filter_items, filterStep, hs]
  · simp [filter_items, filterStep, hs, bump]

/-- Witness for C5 at an item matching both the announcement category set
and the university title pattern, under the default configuration. -/
theorem first_rule_wins_witness :
    should_filter defaultCfg univAnnItem = (true, ilanReason univAnnItem.category) ∧
    ilanReason univAnnItem.category ≠ "Üniversite/Akademik içerik" ∧
    (filter_items defaultCfg [univAnnItem]).filtered_items = [univAnnItem] ∧
    (filter_items defaultCfg [univAnnItem]).filter_summary
      = [(ilanReason univAnnItem.category, 1)] :=
  first_rule_wins defaultCfg univAnnItem (by decide) (by decide) (by decide)

/-- C6 counterexample: the announcement branch of `should_filter` never
consults the title, and the category "İLÂN BÖLÜMÜ" matches no entry of the
filtered-category set under the bidirectional substring test, so the spec's
scenario item — category "İLÂN BÖLÜMÜ", title "a - Yargı İlânları" — is
kept, not excluded, even with every rule family enabled. -/
theorem announcement_scenario_cx :
    categoryMatches "İLÂN BÖLÜMÜ" = false ∧
    should_filter allOnCfg ilanScenarioItem = (false, "") ∧
    (filter_items allOnCfg [ilanScenarioItem]).kept_items = [ilanScenarioItem] ∧
    (filter_items allOnCfg [ilanScenarioItem]).filtered_items = [] := by
  refine ⟨by decide, by decide, by decide, by decide⟩

/-- C6 (amended): the announcement rule tests only the item's category —
the normalized category and some normalized entry of the
legal/auction/miscellaneous-notice set must be related by substring
containment — and titles are never consulted; an item with category
"YARGI İLÂNLARI" is excluded with the announcement reason whatever its
title, while the scenario item with category "İLÂN BÖLÜMÜ" is kept. -/
theorem announcement_rule_category_only (cfg : GazetteFilterCfg)
    (title link ty : String) (h : cfg.filter_announcements = true) :
    should_filter cfg ⟨title, "YARGI İLÂNLARI", link, ty⟩
      = (true, ilanReason "YARGI İLÂNLARI") := by
  have hc : categoryMatches "YARGI İLÂNLARI" = true := by decide
  simp [should_filter, h, hc]

/-- Witness for the amended C6 theorem at the scenario title. -/
theorem announcement_rule_category_only_witness :
    should_filter defaultCfg
        ⟨"a - Yargı İlânları", "YARGI İLÂNLARI",
         "https://www.resmigazete.gov.tr/ilan.pdf", "pdf"⟩
      = (true, ilanReason "YARGI İLÂNLARI") :=
  announcement_rule_category_only defaultCfg "a - Yargı İlânları"
    "https://www.resmigazete.gov.tr/ilan.pdf" "pdf" (by decide)

/-- C7 counterexample: an exchange-rate keyword alone does not suffice —
the title "Döviz Kurlarına İlişkin Karar" contains the keyword "döviz" (and
"kur") but no nearby "merkez bankası", the central-bank pattern does not
match, and the item is kept even with every rule family enabled. -/
theorem central_bank_broader_cx :
    strContains (pyLower dovizItem.title) "döviz" = true ∧
    centralBankSearch dovizItem.title = false ∧
    should_filter allOnCfg dovizItem = (false, "") ∧
    (filter_items allOnCfg [dovizItem]).kept_items = [dovizItem] := by
  refine ⟨by decide, by decide, by decide, by decide⟩

/-- C7 (amended): with `filter_central_bank` enabled and no earlier enabled
rule matching, an item is excluded under the central-bank reason iff its
case-folded title contains "merkez bankası" followed within 0–30
non-newline characters by one of döviz/kur/efektif/parite — the narrow
co-occurrence pattern, not the broader independent-keyword variant. -/
theorem central_bank_cooccurrence (cfg : GazetteFilterCfg) (item : GazetteItem)
    (h₁ : cfg.filter_central_bank = true)
    (h₂ : (cfg.filter_announcements && categoryMatches item.category) = false)
    (h₃ : (cfg.filter_universities && universitySearch item.title) = false) :
    should_filter cfg item = (true, "Merkez Bankası döviz/kur")
      ↔ centralBankSearch item.title = true := by
  by_cases hc : centralBankSearch item.title = true
  · simp [should_filter, h₁, h₂, h₃, hc]
  · have hc' : centralBankSearch item.title = false := by simpa using hc
    simp only [should_filter, h₂, h₃, h₁, hc', Bool.false_eq_true, if_false,
      Bool.true_and]
    constructor
    · intro he
      by_cases ha : (cfg.filter_appointments && appointmentSearch item.title) = true
      · rw [if_pos ha] at he
        have hsnd := congrArg Prod.snd he
        exact absurd hsnd (by decide)
      · rw [if_neg ha] at he
        have hfst := congrArg Prod.fst he
        exact absurd hfst (by decide)
    · intro hfalse
      exact absurd hfalse (by decide)

/-- Witness for the amended C7 theorem: a title carrying the co-occurrence
is excluded under the central-bank reason. -/
theorem central_bank_cooccurrence_witness :
    should_filter defaultCfg mbItem = (true, "Merkez Bankası döviz/kur") :=
  (central_bank_cooccurrence defaultCfg mbItem (by decide) (by decide)
    (by decide)).mpr (by decide)

/-- C10: because the announcement category test is bidirectional, whenever
`filter_announcements` is enabled, any item whose normalized uppercased
category is a substring of some normalized filtered-category entry — in
particular any item with an empty category string — is excluded under the
announcement reason, regardless of its title. -/
theorem substring_category_announcement (cfg : GazetteFilterCfg)
    (item : GazetteItem) (h₁ : cfg.filter_announcements = true)
    (h₂ : ∃ fc ∈ FILTERED_CATEGORIES,
        strContains (normalizeTurkish (pyUpper fc))
          (normalizeTurkish (pyUpper item.category)) = true) :
    should_filter cfg item = (true, ilanReason item.category) := by
  have hc : categoryMatches item.category = true := by
    obtain ⟨fc, hfc, hsub⟩ := h₂
    unfold categoryMatches
    rw [List.any_eq_true]
    refine ⟨fc, hfc, ?_⟩
    show (strContains (normalizeTurkish (pyUpper item.category))
        (normalizeTurkish (pyUpper fc))
      || strContains (normalizeTurkish (pyUpper fc))
        (normalizeTurkish (pyUpper item.category))) = true
    rw [hsub, Bool.or_true]
  simp [should_filter, h₁, hc]

/-- Witness for C10 at an item whose category is the empty string. -/
theorem substring_category_announcement_witness :
    should_filter defaultCfg emptyCatItem = (true, ilanReason "") :=
  substring_category_announcement defaultCfg emptyCatItem (by decide)
    ⟨"YARGI İLÂNLARI", by decide, by decide⟩

end ResmiGazete
